import Mathlib

/-!
Shallow embedding of the SDR-Shop_Generator backend core: the Local Store
(`LocalDatabase` in src/backend/utils/http-client.ts, second document,
lines 548-839 — the variant whose line numbers the claims cite), the host
resolution path of the catch-all route (src/backend/server.ts, lines
141-167), and the SEO renderer (src/backend/utils/seo-helper.ts).

Modelling conventions:
* SQLite tables are lists of row structures in insertion (rowid) order;
  `SELECT` without `ORDER BY` reads rows in that natural order.
* SQLite `LIKE` with a pattern of the shape percent-clean-percent is
  modelled as ASCII-case-insensitive substring containment (the cleaned
  hosts used by the program contain no LIKE wildcard characters).
* JavaScript strings are Lean `String`s; the string operations the code
  performs (regex prefix/suffix strips, split, join, toLowerCase) are
  implemented over `List Char` so that concrete evaluation is
  kernel-friendly.  All hosts involved are ASCII, where JS `toLowerCase`
  and SQLite case folding agree with `Char.toLower`.
-/

/- ===== character/string helpers (JS string methods over List Char) ===== -/

/-- ASCII lower-casing of a character list, matching JS `toLowerCase` and
SQLite `LIKE` case folding on ASCII input. -/
def lowerL (cs : List Char) : List Char := cs.map Char.toLower

/-- JS `String.prototype.split(sep)` for a one-character separator:
the empty string splits to a single empty field, and adjacent separators
produce empty fields. -/
def splitOnCharL (sep : Char) : List Char → List (List Char)
  | [] => [[]]
  | c :: rest =>
    match splitOnCharL sep rest with
    | [] => [[]]
    | g :: gs => if c = sep then [] :: g :: gs else (c :: g) :: gs

/-- JS `Array.prototype.join(sep)` for a one-character separator. -/
def joinWithCharL (sep : Char) : List (List Char) → List Char
  | [] => []
  | [g] => g
  | g :: gs => g ++ sep :: joinWithCharL sep gs

/-- Does `needle` occur as a contiguous substring of `hay`? -/
def isInfixL (needle hay : List Char) : Bool :=
  hay.tails.any (fun t => needle.isPrefixOf t)

/- ===== data model (interfaces/*.ts and the SQLite schema) ===== -/

/-- `ArtistApiDto` (src/backend/interfaces/artist.ts): the upstream JSON
shape for one artist.  `productionPrice` is modelled as an integer; no
claim depends on fractional prices. -/
structure ArtistApiDto where
  id : String
  name : String
  type : String
  website : Option String
  isActive : Bool
  archivePath : Option String
  bio : Option String
  productionPrice : Option Int
  avatarDataUri : Option String
  logoDataUri : Option String
  faviconDataUri : Option String
deriving DecidableEq

/-- `ArtistRow` (src/backend/interfaces/artist.ts): one row of the
`artists` table. -/
structure ArtistRow where
  id : String
  name : String
  type : String
  website : Option String
  bio : Option String
  isActive : Nat
  archivePath : Option String
  productionPrice : Int
  hasAvatar : Nat
  hasLogo : Nat
  hasFavicon : Nat
deriving DecidableEq

/-- `ArtistEntity` (src/backend/interfaces/artist.ts): the shape returned
by the Local Store read operations. -/
structure ArtistEntity where
  id : String
  name : String
  type : String
  website : Option String
  bio : Option String
  isActive : Bool
  hasAvatar : Bool
  hasLogo : Bool
  hasFavicon : Bool
deriving DecidableEq

/-- `ShopApiDto` (src/unnamed/part_001): upstream JSON shape for a shop. -/
structure ShopApiDto where
  id : String
  name : String
  website : Option String
  imageDataUri : Option String
  artistId : String
  shopFeed : Option String
deriving DecidableEq

/-- `ShopRow`: one row of the `shops` table. -/
structure ShopRow where
  id : String
  artistId : String
  name : String
  website : Option String
  hasImage : Nat
  shopFeed : Option String
deriving DecidableEq

/-- `ShopEntity`: shop shape returned by `getShopByArtist`. -/
structure ShopEntity where
  id : String
  artistId : String
  name : String
  website : Option String
  hasImage : Bool
  shopFeed : Option String
deriving DecidableEq

/-- `SocialApiDto` (src/backend/interfaces/social.ts). -/
structure SocialApiDto where
  id : String
  name : String
  description : Option String
  url : String
deriving DecidableEq

/-- `SocialRow`: one row of the `socials` table. -/
structure SocialRow where
  id : String
  artistId : String
  name : String
  description : Option String
  url : String
deriving DecidableEq

/-- `LatestReleasesApiDto` (interfaces/latest-releases.ts is not under
src/; the shape is used field-by-field in http-client.ts lines 760-773):
`youtube` and `spotify` are independently nullable objects.  Each side is
modelled as an opaque serialized payload, standing for the result of
`JSON.stringify` on the corresponding object. -/
structure LatestReleasesApiDto where
  youtube : Option String
  spotify : Option String
deriving DecidableEq

/-- `LatestReleasesRow`: one row of the `latest_releases` table
(`artistId TEXT PRIMARY KEY, youtube TEXT, spotify TEXT`). -/
structure LatestReleasesRow where
  artistId : String
  youtube : Option String
  spotify : Option String
deriving DecidableEq

/-- The four tables of the Local Store, each in natural (insertion) row
order.  SQLite PRIMARY KEY / UNIQUE violations (duplicate ids inside one
upstream dataset) are outside the model; the well-formedness predicate
`EnvWf` below delimits the environments on which inserts-as-appends agree
with SQLite. -/
structure DBState where
  artists : List ArtistRow
  shops : List ShopRow
  socials : List SocialRow
  latestReleases : List LatestReleasesRow
deriving DecidableEq

/-- The state of the store right after the wipe transaction
(`DELETE FROM` each of the four tables, http-client.ts lines 657-662). -/
def emptyDB : DBState := ⟨[], [], [], []⟩

/- ===== JS truthiness helpers ===== -/

/-- JS truthiness of an optional string field (`undefined`/empty string
are falsy, any other string truthy), as used by `a.avatarDataUri ? 1 : 0`
and friends. -/
def jsTruthyStr : Option String → Bool
  | some s => !s.isEmpty
  | none => false

/-- JS `x || fallback` on an optional string: absent or empty falls back. -/
def jsOrStr (v : Option String) (fallback : String) : String :=
  match v with
  | some s => if s.isEmpty then fallback else s
  | none => fallback

/- ===== row builders (the upsert helpers, http-client.ts 702-773) ===== -/

/-- The row written by `upsertArtist` (http-client.ts lines 702-723). -/
def artistRowOf (a : ArtistApiDto) : ArtistRow :=
  { id := a.id
    name := a.name
    type := a.type
    website := a.website
    bio := a.bio
    isActive := if a.isActive then 1 else 0
    archivePath := a.archivePath
    productionPrice := a.productionPrice.getD 0
    hasAvatar := if jsTruthyStr a.avatarDataUri then 1 else 0
    hasLogo := if jsTruthyStr a.logoDataUri then 1 else 0
    hasFavicon := if jsTruthyStr a.faviconDataUri then 1 else 0 }

/-- The row written by `upsertShop` (http-client.ts lines 725-741). -/
def shopRowOf (s : ShopApiDto) (artistId : String) : ShopRow :=
  { id := s.id
    artistId := artistId
    name := s.name
    website := s.website
    hasImage := if jsTruthyStr s.imageDataUri then 1 else 0
    shopFeed := s.shopFeed }

/-- The row written by `upsertSocial` (http-client.ts lines 743-758). -/
def socialRowOf (s : SocialApiDto) (artistId : String) : SocialRow :=
  { id := s.id
    artistId := artistId
    name := s.name
    description := s.description
    url := s.url }

/- ===== Local Store read path (http-client.ts 775-838) ===== -/

/-- The entity produced from a row by `getAllArtists`
(http-client.ts lines 775-788). -/
def artistEntityOf (r : ArtistRow) : ArtistEntity :=
  { id := r.id
    name := r.name
    type := r.type
    website := r.website
    bio := r.bio
    isActive := r.isActive != 0
    hasAvatar := r.hasAvatar != 0
    hasLogo := r.hasLogo != 0
    hasFavicon := r.hasFavicon != 0 }

/-- `getAllArtists` (http-client.ts lines 775-788). -/
def getAllArtists (db : DBState) : List ArtistEntity :=
  db.artists.map artistEntityOf

/-- The host cleaning done inside `getArtistByWebsite`
(http-client.ts line 791): strip a leading scheme and one trailing
slash. -/
def cleanHost (host : String) : String :=
  let cs := host.data
  let cs := if ("https://".data).isPrefixOf cs then cs.drop 8
            else if ("http://".data).isPrefixOf cs then cs.drop 7
            else cs
  let cs := if cs.getLast? = some '/' then cs.dropLast else cs
  String.mk cs

/-- SQLite `website LIKE ?` with pattern percent-clean-percent:
the stored website must contain `clean` as an ASCII-case-insensitive
substring.  A NULL website never satisfies LIKE. -/
def websiteMatches (clean : String) (r : ArtistRow) : Bool :=
  match r.website with
  | some w => isInfixL (lowerL clean.data) (lowerL w.data)
  | none => false

/-- `getArtistByWebsite` (http-client.ts lines 790-798): clean the host,
take the first row matching `website LIKE` the cleaned host, then look
the matched id up among `getAllArtists`. -/
def getArtistByWebsite (db : DBState) (host : String) : Option ArtistEntity :=
  let clean := cleanHost host
  match db.artists.find? (websiteMatches clean) with
  | none => none
  | some row => (getAllArtists db).find? (fun a => a.id == row.id)

/-- `getShopByArtist` row-to-entity mapping (http-client.ts 800-814). -/
def shopEntityOf (r : ShopRow) : ShopEntity :=
  { id := r.id
    artistId := r.artistId
    name := r.name
    website := r.website
    hasImage := r.hasImage != 0
    shopFeed := r.shopFeed }

/-- `getShopByArtist` (http-client.ts lines 800-814). -/
def getShopByArtist (db : DBState) (artistId : String) : Option ShopEntity :=
  (db.shops.find? (fun r => r.artistId == artistId)).map shopEntityOf

/- ===== catch-all route host normalization (server.ts 141-167) ===== -/

/-- The host normalization of the catch-all route (server.ts lines
142-149): collapse a host of more than two dot-separated labels to its
last two labels, then lower-case. -/
def normalizeHost (host : String) : String :=
  let parts := splitOnCharL '.' host.data
  let collapsed :=
    if parts.length > 2 then joinWithCharL '.' (parts.drop (parts.length - 2))
    else host.data
  String.mk (lowerL collapsed)

/-- The tenant/shop resolution of the catch-all route (server.ts lines
141-167): normalize the host, look the artist up, then require a shop;
`none` models the 404 (NotFound) responses. -/
def catchAllLookup (db : DBState) (host : String) :
    Option (ArtistEntity × ShopEntity) :=
  match getArtistByWebsite db (normalizeHost host) with
  | none => none
  | some a =>
    match getShopByArtist db a.id with
    | none => none
    | some s => some (a, s)

/- ===== SEO renderer (seo-helper.ts) ===== -/

/-- The `SeoHelper` configuration (seo-helper.ts lines 5-49).
`indexHtml` and `maintenanceHtml` hold the contents `renderHtml` reads
from `indexHtmlPath` / `maintenanceHtmlPath`. -/
structure SeoHelper where
  siteName : String
  rootTitle : String
  defaultPageTitle : String
  faviconUrl : String
  isServerDown : Bool
  indexHtml : String
  maintenanceHtml : String
deriving DecidableEq

/-- The per-request arguments of `renderHtml` (seo-helper.ts 15-22). -/
structure SeoRenderOptions where
  path : String
  url : String
  description : String
  imageUrl : String
  customTitleSegment : String
deriving DecidableEq

/-- The outcome of the image probe in `fetchImageMeta` (seo-helper.ts
58-81): the axios GET can throw (`netError`), `imageSize` can throw on
undecodable bytes (`decodeError`), or decoding succeeds with an optional
content-type header and optional width/height. -/
inductive ImageFetchOutcome where
  | netError
  | decodeError (contentType : Option String)
  | decoded (contentType : Option String) (width : Option Nat) (height : Option Nat)
deriving DecidableEq

/-- Is the probe outcome a fetch or decode failure? -/
def imgFailed : ImageFetchOutcome → Bool
  | .netError => true
  | .decodeError _ => true
  | .decoded _ _ _ => false

/-- The metadata triple `fetchImageMeta` resolves to. -/
structure ImageMeta where
  type : String
  width : Nat
  height : Nat
deriving DecidableEq

/-- `fetchImageMeta` (seo-helper.ts lines 58-81): on success the
content-type falls back to image/png when the header is absent or empty
(JS falsiness) and each missing dimension falls back individually; any
thrown error yields the fixed fallback triple. -/
def fetchImageMeta : ImageFetchOutcome → ImageMeta
  | .netError => ⟨"image/png", 1920, 1080⟩
  | .decodeError _ => ⟨"image/png", 1920, 1080⟩
  | .decoded ct w h => ⟨jsOrStr ct "image/png", w.getD 1920, h.getD 1080⟩

/-- JS `word.charAt(0).toUpperCase() + word.slice(1)`. -/
def capitalizeWord : List Char → List Char
  | [] => []
  | c :: cs => c.toUpper :: cs

/-- `formatTitle` (seo-helper.ts lines 51-56): split on hyphens,
capitalize each word, join with spaces. -/
def formatTitle (s : String) : String :=
  String.mk (joinWithCharL ' ' ((splitOnCharL '-' s.data).map capitalizeWord))

/-- JS `String.prototype.replace` with a plain-string pattern: replace
only the first occurrence (dollar-escape sequences in the replacement are
not modelled; no replacement string involved here uses them). -/
def replaceFirstL (pat repl : List Char) : List Char → List Char
  | [] => if pat.isEmpty then repl else []
  | c :: rest =>
    if pat.isPrefixOf (c :: rest) then repl ++ (c :: rest).drop pat.length
    else c :: replaceFirstL pat repl rest

/-- String wrapper for `replaceFirstL`. -/
def jsReplaceFirst (s pat repl : String) : String :=
  String.mk (replaceFirstL pat.data repl.data s.data)

/-- The meta-tag block built inside `renderHtml` (seo-helper.ts 97-107),
reproduced from the template literal. -/
def metaTagsOf (h : SeoHelper) (url description imageUrl pageTitle : String)
    (m : ImageMeta) : String :=
  "\n    <meta name=\"description\" content=\"" ++ description ++ "\">" ++
  "\n    <meta property=\"og:url\" content=\"" ++ url ++ "\">" ++
  "\n    <meta property=\"og:type\" content=\"website\">" ++
  "\n    <meta property=\"og:site_name\" content=\"" ++ h.siteName ++ "\">" ++
  "\n    <meta property=\"og:title\" content=\"" ++ pageTitle ++ "\">" ++
  "\n    <meta property=\"og:description\" content=\"" ++ description ++ "\">" ++
  "\n    <meta property=\"og:image\" content=\"" ++ imageUrl ++ "\">" ++
  "\n    <meta property=\"og:image:height\" content=\"" ++ toString m.height ++ "\">" ++
  "\n    <meta property=\"og:image:width\" content=\"" ++ toString m.width ++ "\">" ++
  "\n    <meta property=\"og:image:type\" content=\"" ++ m.type ++ "\">"

/-- `renderHtml` (seo-helper.ts lines 83-118): build the page title,
probe the image (outcome supplied as `img`), pick the maintenance or
index template, substitute the metaTags and favicon_url placeholders,
and substitute the title placeholder only outside maintenance mode. -/
def renderHtml (h : SeoHelper) (o : SeoRenderOptions)
    (img : ImageFetchOutcome) : String :=
  let isRoot := o.path = "/"
  let titleSegment :=
    if isRoot then h.defaultPageTitle
    else formatTitle (String.mk ((splitOnCharL '/' o.path.data).getD 1 []))
  let pageTitle :=
    h.rootTitle ++ " - " ++
      (if o.customTitleSegment.isEmpty then titleSegment
       else o.customTitleSegment)
  let m := fetchImageMeta img
  let metaTags := metaTagsOf h o.url o.description o.imageUrl pageTitle m
  let html := if h.isServerDown then h.maintenanceHtml else h.indexHtml
  let html := jsReplaceFirst html "{metaTags}" metaTags
  let html := jsReplaceFirst html "{favicon_url}" h.faviconUrl
  if h.isServerDown then html else jsReplaceFirst html "{title}" pageTitle

/-- Count the positions at which `pat` occurs in `s` (used by the
template-substitution theorems). -/
def countOccur (s pat : String) : Nat :=
  (s.data.tails.filter (fun t => pat.data.isPrefixOf t)).length

/- ===== sync engine (fetchAndStoreAll, http-client.ts 649-689) ===== -/

/-- The JSON body of a per-tenant sub-fetch as the sync code sees it.
`HttpClient.request` (http-client.ts lines 50-92) never throws: a
transport error is caught and returned as status 500 with the JS object
`{ error: message }` as the body — which is truthy and not an array.
The sync code inspects only the body (not the status) of the per-tenant
fetches:
* `arr` — a JSON array decoded to a list of DTOs;
* `obj` — a JSON object decoded to one DTO;
* `errObj` — the catch-produced error object (fields like
  youtube/spotify/id read off it are `undefined`);
* `nullish` — a falsy body (null, or an empty text body). -/
inductive JsBody (α : Type) where
  | arr (xs : List α)
  | obj (a : α)
  | errObj (msg : String)
  | nullish

/-- The upstream responses one sync cycle consumes: the root collection
fetch result (status and decoded body) and, per artist id, the three
per-tenant sub-fetch bodies. -/
structure SyncEnv where
  artistsStatus : Nat
  artistsBody : List ArtistApiDto
  soc : String → JsBody SocialApiDto
  shp : String → JsBody ShopApiDto
  rel : String → JsBody LatestReleasesApiDto

/-- The artist list the cycle iterates over (http-client.ts line 654):
the body when the root fetch returned status 200, else the empty list. -/
def rootArtists (env : SyncEnv) : List ArtistApiDto :=
  if env.artistsStatus = 200 then env.artistsBody else []

/-- The socials part of the per-tenant transaction (http-client.ts line
675): `(soc.body || []).forEach(...)`.  A falsy body degrades to the
empty array; calling forEach on a non-array object (in particular on the
transport-failure error object) throws a TypeError, modelled as
`Except.error`. -/
def socialsForEach (artistId : String) :
    JsBody SocialApiDto → Except Unit (List SocialRow)
  | .arr xs => .ok (xs.map (fun s => socialRowOf s artistId))
  | .nullish => .ok []
  | .obj _ => .error ()
  | .errObj _ => .error ()

/-- The shop part of the per-tenant transaction (http-client.ts lines
677-680): a truthy body is unwrapped (`body[0]` if it is an array) and
upserted when still truthy.  Upserting the transport-failure error
object binds `undefined` for every column, which better-sqlite3 rejects
by throwing, modelled as `Except.error`. -/
def shopInsert (artistId : String) :
    JsBody ShopApiDto → Except Unit (Option ShopRow)
  | .arr [] => .ok none
  | .arr (s :: _) => .ok (some (shopRowOf s artistId))
  | .obj s => .ok (some (shopRowOf s artistId))
  | .nullish => .ok none
  | .errObj _ => .error ()

/-- The latest-releases part of the per-tenant transaction
(http-client.ts line 682 and lines 760-773): any truthy body is passed
to `upsertLatestReleases`, whose reads of `l.youtube` / `l.spotify`
yield `undefined` — stored as NULL — when the body is the
transport-failure error object (or an array). -/
def relInsert (artistId : String) :
    JsBody LatestReleasesApiDto → Option LatestReleasesRow
  | .obj l => some ⟨artistId, l.youtube, l.spotify⟩
  | .arr _ => some ⟨artistId, none, none⟩
  | .errObj _ => some ⟨artistId, none, none⟩
  | .nullish => none

/-- The whole per-tenant insert transaction (http-client.ts lines
674-683); a thrown TypeError rolls the transaction back and propagates,
so the transaction contributes rows only in the `ok` case. -/
def insertTx (artistId : String) (soc : JsBody SocialApiDto)
    (shp : JsBody ShopApiDto) (rel : JsBody LatestReleasesApiDto) :
    Except Unit (List SocialRow × Option ShopRow × Option LatestReleasesRow) := do
  let ss ← socialsForEach artistId soc
  let so ← shopInsert artistId shp
  .ok (ss, so, relInsert artistId rel)

/-- Appending `upsertArtist`'s row (executed outside any transaction,
http-client.ts line 665). -/
def addArtist (db : DBState) (a : ArtistApiDto) : DBState :=
  { db with artists := db.artists ++ [artistRowOf a] }

/-- Committing one per-tenant transaction's rows. -/
def applyTenant (db : DBState)
    (g : List SocialRow × Option ShopRow × Option LatestReleasesRow) : DBState :=
  { db with
      socials := db.socials ++ g.1
      shops := db.shops ++ g.2.1.toList
      latestReleases := db.latestReleases ++ g.2.2.toList }

/-- The per-artist loop of `fetchAndStoreAll` (http-client.ts lines
664-684).  The returned list holds the store states visible to a
concurrent reader at each suspension point — the `await Promise.all`
that separates `upsertArtist` from the per-tenant transaction — and the
second component is the state when the cycle ends (normally, or through
the catch after a thrown per-tenant transaction). -/
def syncLoop (env : SyncEnv) : DBState → List ArtistApiDto → List DBState × DBState
  | db, [] => ([], db)
  | db, a :: rest =>
    let db1 := addArtist db a
    match insertTx a.id (env.soc a.id) (env.shp a.id) (env.rel a.id) with
    | .error _ => ([db1], db1)
    | .ok g =>
      let r := syncLoop env (applyTenant db1 g) rest
      (db1 :: r.1, r.2)

/-- `fetchAndStoreAll` (http-client.ts lines 649-689) as a function from
the upstream responses and the pre-cycle store to the list of
mid-cycle reader-visible states and the final store.  An empty (or
non-200) root collection returns before the wipe; otherwise the four
tables are wiped in one transaction — inside the same synchronous block
as the first `upsertArtist`, so the freshly wiped state alone is never
reader-visible. -/
def fetchAndStoreAll (env : SyncEnv) (db0 : DBState) : List DBState × DBState :=
  let artists := rootArtists env
  if artists.isEmpty then ([], db0)
  else syncLoop env emptyDB artists

/-- Every store state a concurrent reader can observe around one sync
cycle: the pre-cycle state (visible during the root fetch), the states
at each per-tenant suspension point, and the final state. -/
def cycleStates (env : SyncEnv) (db0 : DBState) : List DBState :=
  db0 :: (fetchAndStoreAll env db0).1 ++ [(fetchAndStoreAll env db0).2]

/-- The store state after the sync cycle has ended. -/
def cycleFinal (env : SyncEnv) (db0 : DBState) : DBState :=
  (fetchAndStoreAll env db0).2

/-- Does the per-tenant processing of artist `a` complete without a
thrown error (socials body iterable, shop body not the transport-failure
error object)? -/
def tenantFetchOk (env : SyncEnv) (a : ArtistApiDto) : Bool :=
  (match env.soc a.id with
   | .arr _ => true
   | .nullish => true
   | _ => false) &&
  (match env.shp a.id with
   | .errObj _ => false
   | _ => true)

/-- The socials rows tenant `a` contributes when its transaction
commits. -/
def tenantSocialRows (env : SyncEnv) (a : ArtistApiDto) : List SocialRow :=
  match env.soc a.id with
  | .arr xs => xs.map (fun s => socialRowOf s a.id)
  | _ => []

/-- The shop row tenant `a` contributes when its transaction commits. -/
def tenantShopRow (env : SyncEnv) (a : ArtistApiDto) : Option ShopRow :=
  match env.shp a.id with
  | .arr [] => none
  | .arr (s :: _) => some (shopRowOf s a.id)
  | .obj s => some (shopRowOf s a.id)
  | _ => none

/-- The latest-releases row tenant `a` contributes. -/
def tenantRelRow (env : SyncEnv) (a : ArtistApiDto) : Option LatestReleasesRow :=
  relInsert a.id (env.rel a.id)

/-- Environments on which modelling the INSERTs as appends agrees with
SQLite: the upstream dataset carries no duplicate primary keys (artist
ids, social ids, shop ids).  Duplicate ids inside one dataset would make
better-sqlite3 throw on the PRIMARY KEY constraint, a behaviour outside
this model. -/
def EnvWf (env : SyncEnv) : Prop :=
  ((rootArtists env).map (fun a => a.id)).Nodup ∧
  (((rootArtists env).map (tenantSocialRows env)).flatten.map (fun r => r.id)).Nodup ∧
  ((((rootArtists env).map (fun a => (tenantShopRow env a).toList)).flatten).map (fun r => r.id)).Nodup

/- ===== sync scheduler (startSyncSchedule, http-client.ts 691-700) ===== -/

/-- Events of the scheduler loop: `trigger` is an invocation of the
`run` callback (a timer fire, or any other attempt to enter a sync);
`complete` is the pending cycle finishing (`await fetchAndStoreAll`
resolving and the flag being cleared). -/
inductive SyncEvent where
  | trigger
  | complete
deriving DecidableEq

/-- Scheduler state: the single-flight `syncing` flag, the store, and a
count of the sync cycles whose store writes have run (how many times the
burst has touched the store). -/
structure SchedState where
  syncing : Bool
  db : DBState
  cyclesRun : Nat

/-- One step of the `run` callback logic (http-client.ts lines 692-698):
a trigger while `syncing` returns immediately (dropped, not queued); a
trigger while idle sets the flag and starts a cycle; completion applies
the cycle's effect on the store and clears the flag.  JS is
single-threaded and the guard plus flag assignment form one synchronous
block, so interleavings are sequences of these steps. -/
def schedStep (env : SyncEnv) (s : SchedState) : SyncEvent → SchedState
  | .trigger => if s.syncing then s else { s with syncing := true }
  | .complete =>
    if s.syncing then
      { syncing := false, db := cycleFinal env s.db, cyclesRun := s.cyclesRun + 1 }
    else s

/-- Running a burst: a first trigger, `k` further overlapping triggers
while the first cycle is in flight, then the cycle's completion. -/
def schedBurst (env : SyncEnv) (db0 : DBState) (k : Nat) : SchedState :=
  ((SyncEvent.trigger :: List.replicate k SyncEvent.trigger) ++ [SyncEvent.complete]).foldl
    (schedStep env) ⟨false, db0, 0⟩

/- ===== ready() (http-client.ts 594-602) ===== -/

/-- State for the `ready()` memoization: the cached promise (identified
by an opaque token) and how many times the initialization body — table
creation, the initial `fetchAndStoreAll`, and `startSyncSchedule` — has
been started. -/
structure ReadyState where
  readyPromise : Option Nat
  initRuns : Nat
deriving DecidableEq

/-- One call of `ready()` (http-client.ts lines 594-602): return the
cached promise if present; otherwise start the initialization body once,
cache its promise (`fresh`), and return it.  The check and the
assignment happen in one synchronous block (the async IIFE suspends only
later, inside `fetchAndStoreAll`), so in single-threaded JS no two calls
can both see the cache empty. -/
def readyCall (s : ReadyState) (fresh : Nat) : ReadyState × Nat :=
  match s.readyPromise with
  | some p => (s, p)
  | none => (⟨some fresh, s.initRuns + 1⟩, fresh)

/-- A sequence of `ready()` calls, each supplied a fresh promise token;
returns the final state and every call's returned promise. -/
def readyCalls : ReadyState → List Nat → ReadyState × List Nat
  | s, [] => (s, [])
  | s, f :: fs =>
    let r := readyCall s f
    let rest := readyCalls r.1 fs
    (rest.1, r.2 :: rest.2)

/- ===== concrete instances used by the per-claim theorems ===== -/

/-- A fetched artist used by the atomicity counterexample. -/
def a1C1 : ArtistApiDto :=
  ⟨"a1", "New", "group", some "artist.com", true, none, none, none, none, none, none⟩

/-- The shop DTO fetched for `a1C1`. -/
def shopDtoC1 : ShopApiDto := ⟨"s1", "New", some "artist.com", none, "a1", none⟩

/-- Upstream responses for the atomicity counterexample: one artist,
whose socials list is empty, whose shop fetch returns an object, and
whose latest-releases fetch returns a falsy body. -/
def envC1 : SyncEnv :=
  ⟨200, [a1C1], fun _ => .arr [], fun _ => .obj shopDtoC1, fun _ => .nullish⟩

/-- A pre-cycle snapshot holding an old generation (one artist with its
shop). -/
def dbPreC1 : DBState :=
  ⟨[⟨"old", "Old", "group", some "old.com", none, 1, none, 0, 0, 0, 0⟩],
   [⟨"os", "old", "Old", some "old.com", 0, none⟩], [], []⟩

/-- The mid-cycle state a concurrent reader can observe during the
`Promise.all` await: the new artist committed, its shop not yet. -/
def midC1 : DBState := ⟨[artistRowOf a1C1], [], [], []⟩

/-- Upstream responses whose root fetch fails with a transport error
(status 500). -/
def envC2 : SyncEnv :=
  ⟨500, [a1C1], fun _ => .nullish, fun _ => .nullish, fun _ => .nullish⟩

/-- Upstream responses whose root fetch succeeds with zero entries. -/
def envC2b : SyncEnv :=
  ⟨200, [], fun _ => .nullish, fun _ => .nullish, fun _ => .nullish⟩

/-- A pre-cycle snapshot used by the failed-cycle frame theorems. -/
def dbPreC2 : DBState :=
  ⟨[⟨"keep", "Keep", "group", some "keep.com", none, 1, none, 0, 0, 0, 0⟩],
   [⟨"ks", "keep", "Keep", some "keep.com", 1, none⟩],
   [⟨"soc1", "keep", "ig", none, "u"⟩],
   [⟨"keep", some "y", none⟩]⟩

/-- Environment used by the single-flight witness. -/
def envC3 : SyncEnv :=
  ⟨200, [a1C1], fun _ => .arr [], fun _ => .obj shopDtoC1, fun _ => .nullish⟩

/-- Store used by the single-flight witness. -/
def dbC3 : DBState := dbPreC2

/-- The stored artist row of the host-normalization round trip. -/
def aC4 : ArtistRow :=
  ⟨"a1", "Artist", "group", some "artist.com", none, 1, none, 0, 0, 0, 0⟩

/-- The shop row belonging to `aC4`. -/
def sC4 : ShopRow := ⟨"s1", "a1", "Artist", some "artist.com", 1, none⟩

/-- Store for the host-normalization round trip: one tenant whose stored
website is artist.com, with its shop. -/
def dbC4 : DBState := ⟨[aC4], [sC4], [], []⟩

/-- A stored artist row whose website is example.com. -/
def aC5 : ArtistRow :=
  ⟨"a5", "Ex", "group", some "example.com", none, 1, none, 0, 0, 0, 0⟩

/-- Store with a single tenant whose stored website is example.com. -/
def dbC5 : DBState := ⟨[aC5], [], [], []⟩

/-- A stored artist row whose website is shop.example.com. -/
def aC5b : ArtistRow :=
  ⟨"a5b", "Exb", "group", some "shop.example.com", none, 1, none, 0, 0, 0, 0⟩

/-- Store with a single tenant whose stored website is
shop.example.com. -/
def dbC5b : DBState := ⟨[aC5b], [], [], []⟩

/-- First fetched artist of the partial-failure scenarios. -/
def a1C6 : ArtistApiDto :=
  ⟨"t1", "One", "group", some "one.com", true, none, none, none, none, none, none⟩

/-- Second fetched artist of the partial-failure scenarios. -/
def a2C6 : ArtistApiDto :=
  ⟨"t2", "Two", "group", some "two.com", true, none, none, none, none, none, none⟩

/-- A social DTO fetched for `t1`. -/
def socDtoC6 : SocialApiDto := ⟨"sc1", "ig", some "d", "http://ig/one"⟩

/-- A shop DTO fetched for `t1`. -/
def shopDtoC6 : ShopApiDto := ⟨"sh1", "One", some "one.com", some "img", "t1", none⟩

/-- Counterexample environment: tenant `t1`'s socials fetch fails with a
transport error (truthy non-array error body) while everything else
succeeds; `t2` follows `t1` in the collection. -/
def envC6x : SyncEnv :=
  ⟨200, [a1C6, a2C6],
   fun i => if i = "t1" then .errObj "socket hang up" else .arr [],
   fun i => if i = "t1" then .obj shopDtoC6 else .nullish,
   fun _ => .nullish⟩

/-- Witness environment: tenant `t1`'s latest-releases fetch fails with
a transport error while its socials and shop fetches succeed, and `t2`
follows in the collection. -/
def envC6w : SyncEnv :=
  ⟨200, [a1C6, a2C6],
   fun i => if i = "t1" then .arr [socDtoC6] else .arr [],
   fun i => if i = "t1" then .obj shopDtoC6 else .nullish,
   fun i => if i = "t1" then .errObj "socket hang up" else .nullish⟩

/-- SEO configuration used by the image-fallback witness. -/
def seoC7 : SeoHelper :=
  ⟨"One Shop", "One", "Welcome", "https://one.com/favicon.ico", false,
   "<html><head>{metaTags}</head>{title}</html>", "down {metaTags}"⟩

/-- Render options used by the image-fallback witness. -/
def optsC7 : SeoRenderOptions :=
  ⟨"/", "https://one.com/", "d", "https://api/shops/sh1/photo", ""⟩

/-- Store for the empty-host witness: the first artist has a NULL
website, the second a non-null one. -/
def dbC8 : DBState :=
  ⟨[⟨"n1", "NoSite", "group", none, none, 1, none, 0, 0, 0, 0⟩, aC5], [], [], []⟩

/-- Maintenance-mode SEO configuration whose maintenance template holds
two title placeholders, one metaTags placeholder and two favicon_url
placeholders. -/
def seoC10m : SeoHelper :=
  ⟨"S", "R", "W", "fav.ico", true, "IDX",
   "A{title}B{title}C{metaTags}D{favicon_url}E{favicon_url}F"⟩

/-- Normal-mode SEO configuration over the same template. -/
def seoC10n : SeoHelper :=
  ⟨"S", "R", "W", "fav.ico", false,
   "A{title}B{title}C{metaTags}D{favicon_url}E{favicon_url}F", "MNT"⟩

/-- Render options for the template-substitution theorem. -/
def optsC10 : SeoRenderOptions := ⟨"/", "u", "d", "i", ""⟩

/-- A successful image probe for the template-substitution theorem. -/
def imgC10 : ImageFetchOutcome := .decoded (some "image/png") (some 10) (some 20)

/- ===== helper lemmas ===== -/

/-- The empty string is a substring of every string. -/
theorem isInfixL_nil (hay : List Char) : isInfixL [] hay = true := by
  cases hay <;> rfl

/-- Pointwise-equal predicates find the same first element. -/
theorem find?_ext {α : Type} (p q : α → Bool) (h : ∀ a, p a = q a) :
    ∀ l : List α, l.find? p = l.find? q := by
  intro l
  induction l with
  | nil => rfl
  | cons a as ih =>
    rw [List.find?_cons, List.find?_cons, h a, ih]

/-- With duplicate-free ids, looking an id up among the mapped entities
returns the entity of the unique row carrying it. -/
theorem find?_map_entity (l : List ArtistRow) (r : ArtistRow) (hr : r ∈ l)
    (hn : (l.map (fun x => x.id)).Nodup) :
    (l.map artistEntityOf).find? (fun a => a.id == r.id) =
      some (artistEntityOf r) := by
  induction l with
  | nil => cases hr
  | cons x xs ih =>
    rw [List.map_cons, List.find?_cons]
    rw [List.map_cons, List.nodup_cons] at hn
    rcases List.mem_cons.mp hr with rfl | hmem
    · simp [artistEntityOf]
    · have hne : x.id ≠ r.id := by
        intro e
        exact hn.1 (e ▸ List.mem_map_of_mem (fun y => y.id) hmem)
      have : ((artistEntityOf x).id == r.id) = false := by
        simp [artistEntityOf, hne]
      rw [this]
      exact ih hmem hn.2

/-- `renderHtml` depends on the probe outcome only through
`fetchImageMeta`. -/
theorem renderHtml_congr (h : SeoHelper) (o : SeoRenderOptions)
    {i1 i2 : ImageFetchOutcome} (e : fetchImageMeta i1 = fetchImageMeta i2) :
    renderHtml h o i1 = renderHtml h o i2 := by
  unfold renderHtml
  rw [e]

/-- When the socials body is iterable and the shop body is not the
transport-failure error object, the per-tenant transaction commits
exactly the tenant's row group. -/
theorem insertTx_ok_of_tenantFetchOk (env : SyncEnv) (a : ArtistApiDto)
    (h : tenantFetchOk env a = true) :
    insertTx a.id (env.soc a.id) (env.shp a.id) (env.rel a.id) =
      .ok (tenantSocialRows env a, tenantShopRow env a, tenantRelRow env a) := by
  unfold tenantFetchOk at h
  unfold insertTx tenantSocialRows tenantShopRow tenantRelRow
  cases hs : env.soc a.id with
  | obj x => rw [hs] at h; simp at h
  | errObj m => rw [hs] at h; simp at h
  | arr xs =>
    cases hp : env.shp a.id with
    | errObj m => rw [hs, hp] at h; simp at h
    | arr ys => cases ys <;> rfl
    | obj s => rfl
    | nullish => rfl
  | nullish =>
    cases hp : env.shp a.id with
    | errObj m => rw [hs, hp] at h; simp at h
    | arr ys => cases ys <;> rfl
    | obj s => rfl
    | nullish => rfl

/-- When every tenant's transaction commits, the loop appends each
tenant's artist row and row group in collection order. -/
theorem syncLoop_complete (env : SyncEnv) :
    ∀ (l : List ArtistApiDto) (db : DBState),
    (∀ a ∈ l, tenantFetchOk env a = true) →
    (syncLoop env db l).2 =
      ⟨db.artists ++ l.map artistRowOf,
       db.shops ++ (l.map (fun a => (tenantShopRow env a).toList)).flatten,
       db.socials ++ (l.map (tenantSocialRows env)).flatten,
       db.latestReleases ++ (l.map (fun a => (tenantRelRow env a).toList)).flatten⟩ := by
  intro l
  induction l with
  | nil =>
    intro db _
    simp [syncLoop]
  | cons a rest ih =>
    intro db h
    have hok := insertTx_ok_of_tenantFetchOk env a (h a (by simp))
    rw [syncLoop, hok]
    rw [ih _ (fun b hb => h b (List.mem_cons_of_mem a hb))]
    simp [applyTenant, addArtist]

/-- Every artist row of a store state consists of rows built from the
fetched root collection. -/
def NewGenArtists (env : SyncEnv) (s : DBState) : Prop :=
  ∀ r ∈ s.artists, ∃ a ∈ rootArtists env, r = artistRowOf a

/-- Loop invariant: if the accumulated store only holds new-generation
artist rows and the remaining artists come from the fetched collection,
then every reader-visible loop state and the loop's final state only
hold new-generation artist rows. -/
theorem syncLoop_newGen (env : SyncEnv) :
    ∀ (l : List ArtistApiDto) (db : DBState),
    (∀ a ∈ l, a ∈ rootArtists env) → NewGenArtists env db →
    (∀ s ∈ (syncLoop env db l).1, NewGenArtists env s) ∧
      NewGenArtists env (syncLoop env db l).2 := by
  intro l
  induction l with
  | nil =>
    intro db _ hdb
    refine ⟨?_, hdb⟩
    intro s hs
    simp [syncLoop] at hs
  | cons a rest ih =>
    intro db hl hdb
    have hdb1 : NewGenArtists env (addArtist db a) := by
      intro r hr
      rcases List.mem_append.mp hr with hmem | hmem
      · exact hdb r hmem
      · rcases List.mem_singleton.mp hmem with rfl
        exact ⟨a, hl a (List.mem_cons_self a rest), rfl⟩
    rw [syncLoop]
    cases htx : insertTx a.id (env.soc a.id) (env.shp a.id) (env.rel a.id) with
    | error e =>
      refine ⟨?_, hdb1⟩
      intro s hs
      rcases List.mem_singleton.mp hs with rfl
      exact hdb1
    | ok g =>
      have hdb2 : NewGenArtists env (applyTenant (addArtist db a) g) := hdb1
      obtain ⟨h1, h2⟩ :=
        ih (applyTenant (addArtist db a) g)
          (fun b hb => hl b (List.mem_cons_of_mem a hb)) hdb2
      refine ⟨?_, h2⟩
      intro s hs
      rcases List.mem_cons.mp hs with rfl | hs
      · exact hdb1
      · exact h1 s hs

/- ===== claim theorems ===== -/

/-- C2: a sync cycle whose root tenant-collection fetch fails (non-200
status or transport error, which `HttpClient` surfaces as status 500) or
returns zero entries aborts before the wipe: every reader-visible state
and the final state equal the pre-cycle store, so the previously
committed snapshot stays fully queryable and unchanged. -/
theorem c2_failed_root_preserves_store (env : SyncEnv) (db0 : DBState)
    (h : env.artistsStatus ≠ 200 ∨ env.artistsBody = []) :
    cycleStates env db0 = [db0, db0] ∧ cycleFinal env db0 = db0 := by
  have hroot : rootArtists env = [] := by
    rcases h with h | h
    · simp [rootArtists, h]
    · simp [rootArtists, h]
  constructor
  · simp [cycleStates, fetchAndStoreAll, hroot]
  · simp [cycleFinal, fetchAndStoreAll, hroot]

/-- Witness for C2 at concrete inputs: a status-500 root fetch and a
status-200 empty root fetch both leave the populated store untouched. -/
theorem c2_failed_root_preserves_store_witness :
    (envC2.artistsStatus ≠ 200 ∨ envC2.artistsBody = []) ∧
    (cycleStates envC2 dbPreC2 = [dbPreC2, dbPreC2] ∧
      cycleFinal envC2 dbPreC2 = dbPreC2) ∧
    (envC2b.artistsStatus ≠ 200 ∨ envC2b.artistsBody = []) ∧
    (cycleStates envC2b dbPreC2 = [dbPreC2, dbPreC2] ∧
      cycleFinal envC2b dbPreC2 = dbPreC2) :=
  ⟨Or.inl (by decide),
   c2_failed_root_preserves_store envC2 dbPreC2 (Or.inl (by decide)),
   Or.inr (by decide),
   c2_failed_root_preserves_store envC2b dbPreC2 (Or.inr (by decide))⟩

/-- C4: through the serving path — the catch-all route's host
normalization followed by the store lookup — a tenant whose stored
website is artist.com is resolved (together with its shop) by the
request hosts artist.com, www.artist.com, shop.artist.com and
WWW.ARTIST.COM, while other.com yields NotFound. -/
theorem c4_host_normalization_round_trip :
    catchAllLookup dbC4 "artist.com" = some (artistEntityOf aC4, shopEntityOf sC4) ∧
    catchAllLookup dbC4 "www.artist.com" = some (artistEntityOf aC4, shopEntityOf sC4) ∧
    catchAllLookup dbC4 "shop.artist.com" = some (artistEntityOf aC4, shopEntityOf sC4) ∧
    catchAllLookup dbC4 "WWW.ARTIST.COM" = some (artistEntityOf aC4, shopEntityOf sC4) ∧
    catchAllLookup dbC4 "other.com" = none := by
  decide

/-- C7: on every fetch or decode failure the image probe resolves to the
fixed fallback metadata (content-type image/png, 1920 by 1080), and
`renderHtml` still produces a page — the same page a successful
1920-by-1080 image/png probe would produce. -/
theorem c7_image_meta_fallback (h : SeoHelper) (o : SeoRenderOptions)
    (img : ImageFetchOutcome) (hf : imgFailed img = true) :
    fetchImageMeta img = ⟨"image/png", 1920, 1080⟩ ∧
    renderHtml h o img =
      renderHtml h o (.decoded (some "image/png") (some 1920) (some 1080)) := by
  have he : fetchImageMeta img = ⟨"image/png", 1920, 1080⟩ := by
    cases img with
    | netError => rfl
    | decodeError ct => rfl
    | decoded ct w hgt => simp [imgFailed] at hf
  refine ⟨he, renderHtml_congr h o ?_⟩
  rw [he]
  decide

/-- Witness for C7: an unreachable image URL (network error outcome)
yields the fallback metadata and a rendered page. -/
theorem c7_image_meta_fallback_witness :
    imgFailed .netError = true ∧
    fetchImageMeta .netError = ⟨"image/png", 1920, 1080⟩ ∧
    renderHtml seoC7 optsC7 .netError =
      renderHtml seoC7 optsC7 (.decoded (some "image/png") (some 1920) (some 1080)) :=
  ⟨rfl,
   (c7_image_meta_fallback seoC7 optsC7 .netError rfl).1,
   (c7_image_meta_fallback seoC7 optsC7 .netError rfl).2⟩

/-- C9: `ready()` is idempotent — the first call caches its promise,
every later call returns that same promise, and the initialization body
(table creation, initial sync, scheduler start) runs exactly once no
matter how many calls are made. -/
theorem c9_ready_idempotent (f0 : Nat) (fs : List Nat) :
    readyCalls ⟨none, 0⟩ (f0 :: fs) =
      (⟨some f0, 1⟩, f0 :: fs.map (fun _ => f0)) := by
  have aux : ∀ (gs : List Nat) (p k : Nat),
      readyCalls ⟨some p, k⟩ gs = (⟨some p, k⟩, gs.map (fun _ => p)) := by
    intro gs
    induction gs with
    | nil => intro p k; rfl
    | cons g tail ih =>
      intro p k
      simp [readyCalls, readyCall, ih]
  simp [readyCalls, readyCall, aux]

set_option maxRecDepth 40000 in
/-- C10: template substitution replaces only the first occurrence of
each placeholder, and is asymmetric in maintenance mode.  Over a
template carrying two title, one metaTags and two favicon_url
placeholders: the maintenance render keeps both title placeholders
(title is never substituted) while substituting the first metaTags and
first favicon_url occurrences; the normal render substitutes exactly the
first occurrence of each of the three. -/
theorem c10_template_substitution :
    countOccur (renderHtml seoC10m optsC10 imgC10) "{title}" = 2 ∧
    countOccur (renderHtml seoC10m optsC10 imgC10) "{metaTags}" = 0 ∧
    countOccur (renderHtml seoC10m optsC10 imgC10) "{favicon_url}" = 1 ∧
    countOccur (renderHtml seoC10n optsC10 imgC10) "{title}" = 1 ∧
    countOccur (renderHtml seoC10n optsC10 imgC10) "{metaTags}" = 0 ∧
    countOccur (renderHtml seoC10n optsC10 imgC10) "{favicon_url}" = 1 := by
  decide

/-- C3: sync is single-flight.  Triggering the scheduler's run callback
while a sync is in progress (the syncing flag set) is a no-op — the
trigger is dropped, not queued — and a burst of one starting trigger,
any number of overlapping triggers and the cycle's completion runs the
cycle, and touches the store, exactly once. -/
theorem c3_single_flight (env : SyncEnv) (db0 : DBState) :
    (∀ s : SchedState, s.syncing = true → schedStep env s .trigger = s) ∧
    (∀ k : Nat, schedBurst env db0 k =
      ⟨false, cycleFinal env db0, 1⟩) := by
  constructor
  · intro s hs
    simp [schedStep, hs]
  · intro k
    have mid : ∀ n : Nat,
        (List.replicate n SyncEvent.trigger ++ [SyncEvent.complete]).foldl
          (schedStep env) ⟨true, db0, 0⟩ = ⟨false, cycleFinal env db0, 1⟩ := by
      intro n
      induction n with
      | zero => simp [schedStep]
      | succ m ih =>
        rw [List.replicate_succ, List.cons_append, List.foldl_cons]
        simpa [schedStep] using ih
    have : schedBurst env db0 k =
        (List.replicate k SyncEvent.trigger ++ [SyncEvent.complete]).foldl
          (schedStep env) (schedStep env ⟨false, db0, 0⟩ .trigger) := by
      simp [schedBurst]
    rw [this]
    simpa [schedStep] using mid k

/-- Witness for C3: with two overlapping triggers during a concrete
cycle, the dropped trigger leaves the in-flight state unchanged and the
burst touches the store once. -/
theorem c3_single_flight_witness :
    schedStep envC3 ⟨true, dbC3, 0⟩ .trigger = ⟨true, dbC3, 0⟩ ∧
    schedBurst envC3 dbC3 2 = ⟨false, cycleFinal envC3 dbC3, 1⟩ :=
  ⟨(c3_single_flight envC3 dbC3).1 ⟨true, dbC3, 0⟩ rfl,
   (c3_single_flight envC3 dbC3).2 2⟩

/-- C8: a host that cleans to the empty string (e.g. a missing Host
header passed through the catch-all normalization, which maps the empty
string to itself) makes the LIKE pattern degenerate: the lookup returns
the first artist row, in natural order, whose website is non-null, and
returns none exactly when no artist has a non-null website. -/
theorem c8_empty_host_lookup (db : DBState)
    (hn : (db.artists.map (fun r => r.id)).Nodup) :
    normalizeHost "" = "" ∧
    getArtistByWebsite db "" =
      (db.artists.find? (fun r => r.website.isSome)).map artistEntityOf ∧
    (getArtistByWebsite db "" = none ↔ ∀ r ∈ db.artists, r.website = none) := by
  have hchar : ∀ r : ArtistRow, websiteMatches (cleanHost "") r = r.website.isSome := by
    intro r
    cases hw : r.website with
    | none => simp [websiteMatches, hw]
    | some w =>
      simp [websiteMatches, hw]
      exact isInfixL_nil (lowerL w.data)
  have hfind : db.artists.find? (websiteMatches (cleanHost "")) =
      db.artists.find? (fun r => r.website.isSome) :=
    find?_ext _ _ hchar db.artists
  have hmain : getArtistByWebsite db "" =
      (db.artists.find? (fun r => r.website.isSome)).map artistEntityOf := by
    simp only [getArtistByWebsite]
    rw [hfind]
    cases h : db.artists.find? (fun r => r.website.isSome) with
    | none => rfl
    | some row =>
      have hr : row ∈ db.artists := List.mem_of_find?_eq_some h
      unfold getAllArtists
      exact find?_map_entity db.artists row hr hn
  refine ⟨rfl, hmain, ?_⟩
  rw [hmain]
  constructor
  · intro h r hr
    have : db.artists.find? (fun r => r.website.isSome) = none := by
      cases hfe : db.artists.find? (fun r => r.website.isSome) with
      | none => rfl
      | some row => rw [hfe] at h; cases h
    have := List.find?_eq_none.mp this r hr
    cases hw : r.website with
    | none => rfl
    | some w => rw [hw] at this; simp at this
  · intro h
    have : db.artists.find? (fun r => r.website.isSome) = none := by
      apply List.find?_eq_none.mpr
      intro r hr
      rw [h r hr]
      simp
    rw [this]
    rfl

/-- Witness for C8 at a concrete store whose first artist has a NULL
website: the characterization holds with duplicate-free ids. -/
theorem c8_empty_host_lookup_witness :
    (dbC8.artists.map (fun r => r.id)).Nodup ∧
    (normalizeHost "" = "" ∧
     getArtistByWebsite dbC8 "" =
       (dbC8.artists.find? (fun r => r.website.isSome)).map artistEntityOf ∧
     (getArtistByWebsite dbC8 "" = none ↔ ∀ r ∈ dbC8.artists, r.website = none)) :=
  ⟨by decide, c8_empty_host_lookup dbC8 (by decide)⟩

/-- C5 fails as stated: the LIKE match requires the stored website to
contain the cleaned host, not the other way round.  With the stored
website example.com, direct calls with hosts shop.example.com and
www.example.com return no tenant (while the bare host example.com
does). -/
theorem c5_substring_match_counterexample :
    getArtistByWebsite dbC5 "shop.example.com" = none ∧
    getArtistByWebsite dbC5 "www.example.com" = none ∧
    getArtistByWebsite dbC5 "example.com" = some (artistEntityOf aC5) := by
  decide

/-- C5 amended: `getArtistByWebsite` performs a substring match in which
the stored website value must contain the cleaned host
(case-insensitively): whenever the lookup returns a tenant, some stored
row with the returned id has a non-null website containing the cleaned
host as a substring. -/
theorem c5_substring_direction_amended (db : DBState) (host : String)
    (a : ArtistEntity) (h : getArtistByWebsite db host = some a) :
    ∃ r ∈ db.artists, r.id = a.id ∧ ∃ w, r.website = some w ∧
      isInfixL (lowerL (cleanHost host).data) (lowerL w.data) = true := by
  simp only [getArtistByWebsite] at h
  cases hf : db.artists.find? (websiteMatches (cleanHost host)) with
  | none =>
    rw [hf] at h
    exact Option.noConfusion (show (none : Option ArtistEntity) = some a from h)
  | some row =>
    rw [hf] at h
    have hmatch : websiteMatches (cleanHost host) row = true := List.find?_some hf
    have hrowmem : row ∈ db.artists := List.mem_of_find?_eq_some hf
    have hid : a.id = row.id := by
      have hp := List.find?_some
        (show (getAllArtists db).find? (fun x => x.id == row.id) = some a from h)
      simpa using hp
    refine ⟨row, hrowmem, hid.symm, ?_⟩
    unfold websiteMatches at hmatch
    cases hw : row.website with
    | none => rw [hw] at hmatch; cases hmatch
    | some w =>
      rw [hw] at hmatch
      exact ⟨w, rfl, hmatch⟩

/-- Witness for the amended C5: a stored website shop.example.com is
matched by the shorter host example.com, and the theorem recovers the
containment. -/
theorem c5_substring_direction_amended_witness :
    getArtistByWebsite dbC5b "example.com" = some (artistEntityOf aC5b) ∧
    (∃ r ∈ dbC5b.artists, r.id = (artistEntityOf aC5b).id ∧ ∃ w, r.website = some w ∧
      isInfixL (lowerL (cleanHost "example.com").data) (lowerL w.data) = true) :=
  ⟨by decide,
   c5_substring_direction_amended dbC5b "example.com" (artistEntityOf aC5b) (by decide)⟩

/-- C1 fails as stated: a reader concurrent with a sync cycle can
observe a state that is neither the pre-cycle snapshot nor the
post-cycle snapshot — here the newly fetched artist is visible while its
just-fetched shop is not yet inserted. -/
theorem c1_atomic_replace_counterexample :
    midC1 ∈ cycleStates envC1 dbPreC1 ∧
    midC1 ≠ dbPreC1 ∧
    midC1 ≠ cycleFinal envC1 dbPreC1 := by
  decide

/-- C1 amended: the cycle is not atomic as one unit — per-tenant insert
transactions leave intermediate states visible (see the counterexample,
where an artist is present without its shop) — but the wipe is a single
transaction inside the same synchronous block as the first artist
insert, so every reader-visible state is either the pre-cycle snapshot
or consists solely of artist rows built from the newly fetched
collection (never a mix of old-generation and new-generation artist
rows). -/
theorem c1_atomic_replace_amended (env : SyncEnv) (db0 : DBState)
    (s : DBState) (hs : s ∈ cycleStates env db0) :
    s = db0 ∨ NewGenArtists env s := by
  unfold cycleStates at hs
  rcases List.mem_cons.mp hs with rfl | hs'
  · exact Or.inl rfl
  rcases List.mem_append.mp hs' with hmid | hfin
  · right
    simp only [fetchAndStoreAll] at hmid
    by_cases he : (rootArtists env).isEmpty
    · rw [if_pos he] at hmid
      simp at hmid
    · rw [if_neg he] at hmid
      refine (syncLoop_newGen env (rootArtists env) emptyDB (fun a ha => ha) ?_).1 s hmid
      intro r hr
      simp [emptyDB] at hr
  · rcases List.mem_singleton.mp hfin with rfl
    simp only [fetchAndStoreAll]
    by_cases he : (rootArtists env).isEmpty
    · rw [if_pos he]
      exact Or.inl rfl
    · rw [if_neg he]
      refine Or.inr ((syncLoop_newGen env (rootArtists env) emptyDB (fun a ha => ha) ?_).2)
      intro r hr
      simp [emptyDB] at hr

/-- Witness for the amended C1: the mid-cycle state of the
counterexample scenario is reader-visible and indeed consists purely of
new-generation artist rows. -/
theorem c1_atomic_replace_amended_witness :
    midC1 ∈ cycleStates envC1 dbPreC1 ∧
    (midC1 = dbPreC1 ∨ NewGenArtists envC1 midC1) :=
  ⟨by decide, c1_atomic_replace_amended envC1 dbPreC1 midC1 (by decide)⟩

/-- C6 fails as stated for the general "any per-tenant sub-fetch"
clause: a socials transport failure produces the truthy error-object
body, on which `forEach` throws; the per-tenant transaction rolls back
and the exception aborts the rest of the cycle.  Concretely, with two
fetched tenants where the first tenant's socials fetch fails, the final
store holds only the first tenant's artist row: its fetched shop row is
not committed and the second tenant is missing entirely. -/
theorem c6_partial_failure_counterexample :
    cycleFinal envC6x emptyDB = ⟨[artistRowOf a1C6], [], [], []⟩ ∧
    artistRowOf a2C6 ∉ (cycleFinal envC6x emptyDB).artists ∧
    tenantShopRow envC6x a1C6 = some (shopRowOf shopDtoC6 "t1") := by
  decide

/-- C6 amended: the tolerance holds for the auxiliary latest-releases
fetch (the failure mode the claim leads with).  If the root fetch
succeeded and no tenant's socials or shop body is the throwing kind,
then a transport-failed latest-releases fetch for one tenant does not
abort the cycle: every fetched tenant's artist row is committed, the
affected tenant's shop and socials rows are intact, and its auxiliary
data is degraded to absent in the form of a latest-releases row whose
youtube and spotify fields are both NULL. -/
theorem c6_partial_failure_amended (env : SyncEnv) (db0 : DBState)
    (a : ArtistApiDto) (msg : String)
    (hwf : EnvWf env)
    (hstatus : env.artistsStatus = 200)
    (hmem : a ∈ env.artistsBody)
    (hall : ∀ b ∈ env.artistsBody, tenantFetchOk env b = true)
    (hrel : env.rel a.id = .errObj msg) :
    (cycleFinal env db0).artists = env.artistsBody.map artistRowOf ∧
    (⟨a.id, none, none⟩ : LatestReleasesRow) ∈ (cycleFinal env db0).latestReleases ∧
    (∀ r ∈ tenantSocialRows env a, r ∈ (cycleFinal env db0).socials) ∧
    (∀ r ∈ (tenantShopRow env a).toList, r ∈ (cycleFinal env db0).shops) := by
  have hroot : rootArtists env = env.artistsBody := by
    simp [rootArtists, hstatus]
  have hfin : cycleFinal env db0 =
      ⟨env.artistsBody.map artistRowOf,
       (env.artistsBody.map (fun b => (tenantShopRow env b).toList)).flatten,
       (env.artistsBody.map (tenantSocialRows env)).flatten,
       (env.artistsBody.map (fun b => (tenantRelRow env b).toList)).flatten⟩ := by
    unfold cycleFinal
    simp only [fetchAndStoreAll]
    rw [hroot]
    cases hb : env.artistsBody with
    | nil => rw [hb] at hmem; cases hmem
    | cons x xs =>
      rw [if_neg (by simp)]
      rw [syncLoop_complete env (x :: xs) emptyDB
        (fun b hb2 => hall b (hb ▸ hb2))]
      simp [emptyDB]
  rw [hfin]
  refine ⟨rfl, ?_, ?_, ?_⟩
  · refine List.mem_flatten.mpr ⟨(tenantRelRow env a).toList, List.mem_map_of_mem _ hmem, ?_⟩
    unfold tenantRelRow
    rw [hrel]
    simp [relInsert]
  · intro r hr
    exact List.mem_flatten.mpr ⟨tenantSocialRows env a, List.mem_map_of_mem _ hmem, hr⟩
  · intro r hr
    exact List.mem_flatten.mpr ⟨(tenantShopRow env a).toList, List.mem_map_of_mem _ hmem, hr⟩

/-- Witness for the amended C6: tenant t1's latest-releases fetch fails
by transport error while t2 follows in the collection; both tenants are
committed, t1's socials and shop rows are intact, and t1 gets a NULL
latest-releases row. -/
theorem c6_partial_failure_amended_witness :
    EnvWf envC6w ∧
    (envC6w.artistsStatus = 200) ∧
    (a1C6 ∈ envC6w.artistsBody) ∧
    (∀ b ∈ envC6w.artistsBody, tenantFetchOk envC6w b = true) ∧
    (envC6w.rel a1C6.id = .errObj "socket hang up") ∧
    ((cycleFinal envC6w emptyDB).artists = envC6w.artistsBody.map artistRowOf ∧
     (⟨a1C6.id, none, none⟩ : LatestReleasesRow) ∈ (cycleFinal envC6w emptyDB).latestReleases ∧
     (∀ r ∈ tenantSocialRows envC6w a1C6, r ∈ (cycleFinal envC6w emptyDB).socials) ∧
     (∀ r ∈ (tenantShopRow envC6w a1C6).toList, r ∈ (cycleFinal envC6w emptyDB).shops)) :=
  ⟨by unfold EnvWf; decide, rfl, by decide, by decide, rfl,
   c6_partial_failure_amended envC6w emptyDB a1C6 "socket hang up"
     (by unfold EnvWf; decide) rfl (by decide) (by decide) rfl⟩
